import Mathlib

/-!
Shallow embedding of `src/analyze_pdf.py`, a one-shot PDF diagnostic
script.  The script delegates all PDF work to the external PyPDF2
library and only sequences field accesses and `print` calls inside a
single `try/except` block.  We model:

* the observable behavior of the external library and the filesystem
  for one run (`PdfLib`): either opening/parsing raises, or it yields a
  reader object (page count, encryption flag, optional metadata mapping)
  together with the outcome of `extract_text()` on page 0;
* Python's `str.isalnum` per-character classification as a parameter
  `alnum : Char → Bool` (it is driven by the Unicode database; the
  concrete instance `asciiAlnum` agrees with it on the ASCII range);
* the printed output of `analyze_pdf` as the list of strings passed to
  `print`, in order.  The `try/except` is modeled by the error branches
  producing the single `Error analyzing PDF: ...` line; totality of the
  Lean function models that the Python function never raises to its
  caller, so the process exits normally.
-/

/-- Python truthy values `True` / `False` as printed by an f-string. -/
def pyBool (b : Bool) : String := if b then "True" else "False"

/-- The reader object built by `PyPDF2.PdfReader`: page count
(`len(reader.pages)`), encryption flag (`reader.is_encrypted`) and the
optional metadata mapping (`reader.metadata`), modeled as an association
list; `none` models a Python `None` metadata attribute. -/
structure PdfReader where
  numPages : Nat
  isEncrypted : Bool
  metadata : Option (List (String × String))

/-- Observable behavior of the external library and filesystem for one
run: either `open`/`PdfReader` raises with a message, or it yields a
reader together with the outcome of `extract_text()` on the first page
(consulted only when at least one page exists).  Extracted text is kept
as a list of characters; Python string slicing is per character. -/
inductive PdfLib where
  | failOpen (msg : String)
  | ok (reader : PdfReader) (extractText : Except String (List Char))

/-- Python `dict.get(key, default)` on the metadata mapping. -/
def dictGet (m : List (String × String)) (key dflt : String) : String :=
  (m.lookup key).getD dflt

/-- Rounds the rational `num / den` to the nearest natural number, ties
to even; this is the IEEE-754 default rounding, used below both for
rounding a real result to a representable double and for rendering a
double with a fixed number of decimals. -/
def roundNearestEven (num den : Nat) : Nat :=
  let q := num / den
  let r := num % den
  if 2 * r < den then q
  else if den < 2 * r then q + 1
  else if q % 2 = 0 then q else q + 1

/-- Fuel-bounded helper for the base-2 logarithm (structural recursion,
so the kernel can evaluate it). -/
def log2Aux : Nat → Nat → Nat
  | 0, _ => 0
  | fuel + 1, n => if n ≤ 1 then 0 else log2Aux fuel (n / 2) + 1

/-- Floor of the base-2 logarithm of a positive natural number. -/
def natLog2 (n : Nat) : Nat := log2Aux n n

/-- Floor of the base-2 logarithm of the positive fraction `a / b`,
found from the logarithms of `a` and `b` and one comparison. -/
def floorLog2Frac (a b : Nat) : Int :=
  let e0 : Int := (natLog2 a : Int) - (natLog2 b : Int)
  if 0 ≤ e0 then
    if b * 2 ^ e0.toNat ≤ a then e0 else e0 - 1
  else
    if b ≤ a * 2 ^ (-e0).toNat then e0 else e0 - 1

/-- Rounds the nonnegative fraction `a / b` to the nearest IEEE-754
binary64 (double) value, ties to even, returned as an exact fraction
`(numerator, denominator)` whose denominator is a power of two: the
mantissa is the nearest-even 53-bit rounding of `a / b` scaled into
`[2^52, 2^53)`, with the exponent clamped at the subnormal threshold
`2^-1074`.  Overflow to infinity is not modeled; the values reached
here lie in `[0, 100]`. -/
def floatRound (a b : Nat) : Nat × Nat :=
  if a = 0 || b = 0 then (0, 1)
  else
    let e : Int := max (floorLog2Frac a b - 52) (-1074)
    if 0 ≤ e then
      (roundNearestEven a (b * 2 ^ e.toNat) * 2 ^ e.toNat, 1)
    else
      (roundNearestEven (a * 2 ^ (-e).toNat) b, 2 ^ (-e).toNat)

/-- Model of the Python expression `f"{k/n*100:.1f}"` with IEEE-754
double semantics, as CPython evaluates it: `k / n` is true division of
two ints, correctly rounded to the nearest double; the product with
`100` is again correctly rounded to the nearest double; and `:.1f`
renders the exact value of the resulting double to one decimal place
with ties to even.  Cross-checked against CPython on every pair
`k ≤ n ≤ 60` and on boundary cases such as `(23, 80)` (printed `28.7`,
although the exact rational `28.75` would round to `28.8`) and
`(3, 2000)` (printed `0.1`, although the exact rational `0.15` would
round to `0.2`). -/
def qualityRatioStr (k n : Nat) : String :=
  let d1 := floatRound k n
  let d2 := floatRound (d1.1 * 100) d1.2
  let v := roundNearestEven (d2.1 * 10) d2.2
  toString (v / 10) ++ "." ++ toString (v % 10)

/-- Python's `str.isalnum` restricted to its ASCII behavior: letters and
digits.  Used to instantiate the `alnum` parameter on concrete inputs,
all of which are ASCII. -/
def asciiAlnum (c : Char) : Bool := c.isAlphanum

/-- The four header lines printed unconditionally once open and parse
succeed (source lines 9-12). -/
def headerLines (pdf_path : String) (r : PdfReader) : List String :=
  ["=== PDF Analysis ===",
   "File: " ++ pdf_path,
   "Pages: " ++ toString r.numPages,
   "Is Encrypted: " ++ pyBool r.isEncrypted]

/-- The metadata block (source lines 14-19): Python's `if reader.metadata:`
is truthy exactly when the mapping is non-`None` and non-empty; each of
the three fields defaults to `"Unknown"` via `dict.get`. -/
def metaLines (r : PdfReader) : List String :=
  match r.metadata with
  | some m =>
    if m.isEmpty then ["No metadata found"]
    else
      ["PDF Version: " ++ dictGet m "/PDF" "Unknown",
       "Creator: " ++ dictGet m "/Creator" "Unknown",
       "Producer: " ++ dictGet m "/Producer" "Unknown"]
  | none => ["No metadata found"]

/-- The first-page block (source lines 23-31), given the text extracted
from page 0.  `non_whitespace` is, as in the source, the number of
characters satisfying `isalnum` (despite the variable's name).  On
line 31 the conditional expression is the argument of `print`: for empty
text the whole printed line is just `"0%"`. -/
def firstPageLines (alnum : Char → Bool) (text : List Char) : List String :=
  let non_whitespace := (text.filter alnum).length
  ["First page text length: " ++ toString text.length,
   "First page text preview: " ++ String.mk (text.take 200) ++ "...",
   "Non-whitespace characters: " ++ toString non_whitespace,
   if text.length > 0 then
     "Text quality ratio: " ++ qualityRatioStr non_whitespace text.length ++ "%"
   else "0%"]

/-- The printed output of `analyze_pdf(pdf_path)` (source lines 4-36),
one list entry per `print` call, as a function of the library behavior.
The `except Exception` handler is the error branches; the function is
total, so no failure propagates to the caller. -/
def analyze_pdf (alnum : Char → Bool) (pdf_path : String) : PdfLib → List String
  | .failOpen msg => ["Error analyzing PDF: " ++ msg]
  | .ok r ext =>
    headerLines pdf_path r ++ metaLines r ++
    (if r.numPages > 0 then
      match ext with
      | .ok text => firstPageLines alnum text
      | .error msg => ["Error analyzing PDF: " ++ msg]
    else ["No pages found"])

/-- The hard-coded target path of the `__main__` block (source line 39). -/
def mainPdfPath : String := "8.25.25IPanalysis.md.pdf"

/-- The output of running the script: `analyze_pdf` applied to the
hard-coded path (source lines 38-40). -/
def mainOutput (alnum : Char → Bool) (lib : PdfLib) : List String :=
  analyze_pdf alnum mainPdfPath lib

/-- Whether a failure actually occurs during the run: either the
open/parse step raises, or extraction raises and is reached (it is
reached only when at least one page exists). -/
def failureOccurs : PdfLib → Bool
  | .failOpen _ => true
  | .ok r (.error _) => decide (r.numPages > 0)
  | .ok _ (.ok _) => false

/-- The description carried by the failure, if any. -/
def failMsg : PdfLib → String
  | .failOpen m => m
  | .ok _ (.error m) => m
  | .ok _ (.ok _) => ""

/-- Recognizes a printed line of the form `Error analyzing PDF: <description>`. -/
def isErrLine (s : String) : Bool :=
  List.isPrefixOf "Error analyzing PDF: ".data s.data

/-- Recognizes the four first-page lines: text length, preview,
alphanumeric count, and quality ratio (including the bare `0%` form). -/
def isFirstPageLine (s : String) : Bool :=
  List.isPrefixOf "First page text ".data s.data ||
  List.isPrefixOf "Non-whitespace characters: ".data s.data ||
  List.isPrefixOf "Text quality ratio: ".data s.data ||
  List.isPrefixOf "0%".data s.data

/-- Recognizes the three metadata field lines. -/
def isMetaFieldLine (s : String) : Bool :=
  List.isPrefixOf "PDF Version: ".data s.data ||
  List.isPrefixOf "Creator: ".data s.data ||
  List.isPrefixOf "Producer: ".data s.data

/-! Helper lemmas: classifying the printed lines, and the shape of the
output in each branch. -/

/-- A line of the form `Error analyzing PDF: ...` is an error line. -/
@[simp] theorem isErrLine_err (s : String) :
    isErrLine ("Error analyzing PDF: " ++ s) = true := by
  simp [isErrLine]

/-- The first-page length line is not an error line. -/
@[simp] theorem isErrLine_text_length (s : String) :
    isErrLine ("First page text length: " ++ s) = false := rfl

/-- The preview line is not an error line. -/
@[simp] theorem isErrLine_preview (s t : String) :
    isErrLine ("First page text preview: " ++ s ++ t) = false := rfl

/-- The alphanumeric-count line is not an error line. -/
@[simp] theorem isErrLine_non_whitespace (s : String) :
    isErrLine ("Non-whitespace characters: " ++ s) = false := rfl

/-- The quality-ratio line is not an error line. -/
@[simp] theorem isErrLine_quality (s t : String) :
    isErrLine ("Text quality ratio: " ++ s ++ t) = false := rfl

/-- The bare `0%` line is not an error line. -/
@[simp] theorem isErrLine_zero_percent : isErrLine "0%" = false := rfl

/-- No header line is an error line. -/
theorem countP_isErrLine_headerLines (p : String) (r : PdfReader) :
    (headerLines p r).countP isErrLine = 0 := rfl

/-- No metadata-block line is an error line. -/
theorem countP_isErrLine_metaLines (r : PdfReader) :
    (metaLines r).countP isErrLine = 0 := by
  rcases r with ⟨n, e, md⟩
  rcases md with _ | m
  · rfl
  · rcases m with _ | ⟨a, t⟩ <;> rfl

/-- No first-page line is an error line. -/
theorem countP_isErrLine_firstPageLines (alnum : Char → Bool) (text : List Char) :
    (firstPageLines alnum text).countP isErrLine = 0 := by
  simp only [firstPageLines]
  split <;> simp [List.countP_cons]

/-- The closing line of the zero-page branch is not a first-page line. -/
@[simp] theorem isFirstPageLine_no_pages :
    isFirstPageLine "No pages found" = false := rfl

/-- No header line is a first-page line. -/
theorem countP_isFirstPageLine_headerLines (p : String) (r : PdfReader) :
    (headerLines p r).countP isFirstPageLine = 0 := rfl

/-- No metadata-block line is a first-page line. -/
theorem countP_isFirstPageLine_metaLines (r : PdfReader) :
    (metaLines r).countP isFirstPageLine = 0 := by
  rcases r with ⟨n, e, md⟩
  rcases md with _ | m
  · rfl
  · rcases m with _ | ⟨a, t⟩ <;> rfl

/-- The `No metadata found` line is not a metadata field line. -/
@[simp] theorem isMetaFieldLine_no_metadata :
    isMetaFieldLine "No metadata found" = false := rfl

/-- The `No pages found` line is not a metadata field line. -/
@[simp] theorem isMetaFieldLine_no_pages :
    isMetaFieldLine "No pages found" = false := rfl

/-- An error line is not a metadata field line. -/
@[simp] theorem isMetaFieldLine_err (s : String) :
    isMetaFieldLine ("Error analyzing PDF: " ++ s) = false := rfl

/-- The first-page length line is not a metadata field line. -/
@[simp] theorem isMetaFieldLine_text_length (s : String) :
    isMetaFieldLine ("First page text length: " ++ s) = false := rfl

/-- The preview line is not a metadata field line. -/
@[simp] theorem isMetaFieldLine_preview (s t : String) :
    isMetaFieldLine ("First page text preview: " ++ s ++ t) = false := rfl

/-- The alphanumeric-count line is not a metadata field line. -/
@[simp] theorem isMetaFieldLine_non_whitespace (s : String) :
    isMetaFieldLine ("Non-whitespace characters: " ++ s) = false := rfl

/-- The quality-ratio line is not a metadata field line. -/
@[simp] theorem isMetaFieldLine_quality (s t : String) :
    isMetaFieldLine ("Text quality ratio: " ++ s ++ t) = false := rfl

/-- The bare `0%` line is not a metadata field line. -/
@[simp] theorem isMetaFieldLine_zero_percent :
    isMetaFieldLine "0%" = false := rfl

/-- No header line is a metadata field line. -/
theorem countP_isMetaFieldLine_headerLines (p : String) (r : PdfReader) :
    (headerLines p r).countP isMetaFieldLine = 0 := rfl

/-- No first-page line is a metadata field line. -/
theorem countP_isMetaFieldLine_firstPageLines (alnum : Char → Bool) (text : List Char) :
    (firstPageLines alnum text).countP isMetaFieldLine = 0 := by
  simp only [firstPageLines]
  split <;> simp [List.countP_cons]

/-- When the metadata attribute is `None` or the mapping is empty, the
metadata block is the single `No metadata found` line. -/
theorem metaLines_of_absent (r : PdfReader)
    (h : r.metadata = none ∨ r.metadata = some []) :
    metaLines r = ["No metadata found"] := by
  rcases r with ⟨n, e, md⟩
  rcases h with h | h <;> simp only at h <;> subst h <;> rfl

/-- When the metadata mapping is present and non-empty, the metadata
block is the three field lines. -/
theorem metaLines_of_some (r : PdfReader) (m : List (String × String))
    (hm : r.metadata = some m) (hne : m ≠ []) :
    metaLines r =
      ["PDF Version: " ++ dictGet m "/PDF" "Unknown",
       "Creator: " ++ dictGet m "/Creator" "Unknown",
       "Producer: " ++ dictGet m "/Producer" "Unknown"] := by
  rcases r with ⟨n, e, md⟩
  simp only at hm
  subst hm
  rcases m with _ | ⟨a, t⟩
  · exact absurd rfl hne
  · rfl

/-- Output shape of a run with at least one page and successful
extraction. -/
theorem analyze_pdf_ok_pages_pos (alnum : Char → Bool) (path : String)
    (r : PdfReader) (text : List Char) (hp : 0 < r.numPages) :
    analyze_pdf alnum path (.ok r (.ok text)) =
      headerLines path r ++ metaLines r ++ firstPageLines alnum text := by
  simp only [analyze_pdf]
  rw [if_pos hp]

/-- Output shape of a run with at least one page whose extraction
raises. -/
theorem analyze_pdf_ok_extract_error (alnum : Char → Bool) (path : String)
    (r : PdfReader) (msg : String) (hp : 0 < r.numPages) :
    analyze_pdf alnum path (.ok r (.error msg)) =
      headerLines path r ++ metaLines r ++ ["Error analyzing PDF: " ++ msg] := by
  simp only [analyze_pdf]
  rw [if_pos hp]

/-- Output shape of a run with zero pages. -/
theorem analyze_pdf_ok_zero_pages (alnum : Char → Bool) (path : String)
    (r : PdfReader) (ext : Except String (List Char)) (h : r.numPages = 0) :
    analyze_pdf alnum path (.ok r ext) =
      headerLines path r ++ metaLines r ++ ["No pages found"] := by
  simp only [analyze_pdf]
  rw [if_neg (by simp [h])]

/-! Claim theorems. -/

/-- C1: for every input path, if any failure occurs during open, parse,
or extraction, `analyze_pdf` catches it, prints exactly one line of the
form `Error analyzing PDF: <description>` (as the final line), and never
raises to its caller (the output function is total, so the process exits
normally for every behavior). -/
theorem analyze_pdf_failure_single_error_line (alnum : Char → Bool)
    (path : String) (lib : PdfLib) (h : failureOccurs lib = true) :
    (analyze_pdf alnum path lib).countP isErrLine = 1 ∧
    ∃ pre, analyze_pdf alnum path lib =
      pre ++ ["Error analyzing PDF: " ++ failMsg lib] := by
  rcases lib with msg | ⟨r, ext⟩
  · exact ⟨by simp [analyze_pdf, List.countP_cons], [], rfl⟩
  · rcases ext with msg | text
    · have hp : 0 < r.numPages := by simpa [failureOccurs] using h
      rw [analyze_pdf_ok_extract_error alnum path r msg hp]
      refine ⟨?_, headerLines path r ++ metaLines r, by simp [failMsg]⟩
      simp [List.countP_append, countP_isErrLine_headerLines,
        countP_isErrLine_metaLines, List.countP_cons]
    · simp [failureOccurs] at h

/-- C1 witness: a failing open on a concrete path yields exactly one
error line. -/
theorem analyze_pdf_failure_single_error_line_witness :
    failureOccurs (.failOpen "No such file or directory") = true ∧
    ((analyze_pdf asciiAlnum "missing.pdf"
        (.failOpen "No such file or directory")).countP isErrLine = 1 ∧
      ∃ pre, analyze_pdf asciiAlnum "missing.pdf"
          (.failOpen "No such file or directory") =
        pre ++ ["Error analyzing PDF: " ++
          failMsg (.failOpen "No such file or directory")]) :=
  ⟨rfl, analyze_pdf_failure_single_error_line asciiAlnum "missing.pdf"
    (.failOpen "No such file or directory") rfl⟩

/-- C2 counterexample: for a one-page PDF whose first-page text is
empty, the quality-ratio step prints the bare line `0%`; the line
`Text quality ratio: 0%` appears nowhere in the output. -/
theorem analyze_pdf_empty_text_quality_counterexample :
    analyze_pdf asciiAlnum "a.pdf" (.ok ⟨1, false, none⟩ (.ok [])) =
      ["=== PDF Analysis ===", "File: a.pdf", "Pages: 1",
       "Is Encrypted: False", "No metadata found",
       "First page text length: 0", "First page text preview: ...",
       "Non-whitespace characters: 0", "0%"] ∧
    "Text quality ratio: 0%" ∉
      analyze_pdf asciiAlnum "a.pdf" (.ok ⟨1, false, none⟩ (.ok [])) :=
  ⟨by decide, by decide⟩

/-- C2 amended: for every PDF with at least one page whose first-page
extracted text is empty, the quality-ratio step prints the bare line
`0%` (the `Text quality ratio: ` prefix is absent in this branch), and
no division-by-zero failure occurs (the output is defined and the run
reaches its final line). -/
theorem analyze_pdf_empty_text_prints_bare_zero_percent
    (alnum : Char → Bool) (path : String) (r : PdfReader)
    (hp : 0 < r.numPages) :
    analyze_pdf alnum path (.ok r (.ok [])) =
      headerLines path r ++ metaLines r ++
      ["First page text length: 0", "First page text preview: ...",
       "Non-whitespace characters: 0", "0%"] := by
  have hF : firstPageLines alnum [] =
      ["First page text length: 0", "First page text preview: ...",
       "Non-whitespace characters: 0", "0%"] := by
    show ["First page text length: " ++ toString (0 : Nat),
          "First page text preview: " ++ String.mk [] ++ "...",
          "Non-whitespace characters: " ++ toString (0 : Nat), "0%"] = _
    decide
  rw [analyze_pdf_ok_pages_pos alnum path r [] hp, hF]

/-- C2 amended witness: the empty-text run on a concrete reader. -/
theorem analyze_pdf_empty_text_prints_bare_zero_percent_witness :
    0 < (PdfReader.mk 1 false none).numPages ∧
    analyze_pdf asciiAlnum "b.pdf" (.ok ⟨1, false, none⟩ (.ok [])) =
      headerLines "b.pdf" ⟨1, false, none⟩ ++ metaLines ⟨1, false, none⟩ ++
      ["First page text length: 0", "First page text preview: ...",
       "Non-whitespace characters: 0", "0%"] :=
  ⟨by decide, analyze_pdf_empty_text_prints_bare_zero_percent
    asciiAlnum "b.pdf" ⟨1, false, none⟩ (by decide)⟩

set_option maxRecDepth 16000 in
/-- C3 counterexample: a first page of 80 extracted characters of which
23 are alphanumeric.  The exact rational `23/80*100 = 28.75` formatted
to one decimal place is `28.8` under every tie convention (ties to even
and ties away from zero agree, since the tenths value `287.5` rounds up
to the even `288`), so the claim requires the printed ratio `28.8%`.
The program computes in IEEE doubles: the double nearest `23/80` lies
below it, the product with `100` is `28.749999999999996...`, and `:.1f`
prints `28.7` — so the run prints `Text quality ratio: 28.7%` and the
line `Text quality ratio: 28.8%` appears nowhere (CPython prints
`28.7` on this input). -/
theorem analyze_pdf_quality_exact_rational_counterexample :
    ("abcdefghijklmnopqrstuvw".data ++ List.replicate 57 '#').length = 80 ∧
    (("abcdefghijklmnopqrstuvw".data ++
        List.replicate 57 '#').filter asciiAlnum).length = 23 ∧
    "Text quality ratio: 28.7%" ∈
      analyze_pdf asciiAlnum "k.pdf"
        (.ok ⟨1, false, none⟩
          (.ok ("abcdefghijklmnopqrstuvw".data ++ List.replicate 57 '#'))) ∧
    "Text quality ratio: 28.8%" ∉
      analyze_pdf asciiAlnum "k.pdf"
        (.ok ⟨1, false, none⟩
          (.ok ("abcdefghijklmnopqrstuvw".data ++ List.replicate 57 '#'))) := by
  refine ⟨by decide, by decide, ?_, by decide⟩
  decide

set_option maxRecDepth 16000 in
/-- C3 amended: for every first-page text of positive length with `k`
alphanumeric characters among `n`, the printed quality line is
`Text quality ratio: ` followed by `k/n*100` evaluated in IEEE-754
double arithmetic (the division and the product each correctly rounded
to the nearest double) and rendered with one decimal place, suffixed
`%`.  For the text `"abc123  ###"` (11 characters, 6 alphanumeric) the
printed line is `Text quality ratio: 54.5%`, agreeing with the exact
rational rounding there; for 23 alphanumeric among 80 the double
pipeline prints `28.7`, not the exact-rational `28.8`. -/
theorem analyze_pdf_quality_line_double (alnum : Char → Bool)
    (path : String) (r : PdfReader) (text : List Char)
    (hp : 0 < r.numPages) (ht : 0 < text.length) :
    ("Text quality ratio: " ++
        qualityRatioStr ((text.filter alnum).length) text.length ++ "%")
      ∈ analyze_pdf alnum path (.ok r (.ok text)) ∧
    ("abc123  ###".data.length = 11 ∧
      ("abc123  ###".data.filter asciiAlnum).length = 6 ∧
      qualityRatioStr 6 11 = "54.5" ∧ qualityRatioStr 23 80 = "28.7") ∧
    "Text quality ratio: 54.5%" ∈
      analyze_pdf asciiAlnum path (.ok r (.ok "abc123  ###".data)) := by
  refine ⟨?_, ⟨by decide, by decide, by decide, by decide⟩, ?_⟩
  · rw [analyze_pdf_ok_pages_pos alnum path r text hp]
    apply List.mem_append_right
    simp only [firstPageLines]
    rw [if_pos ht]
    simp
  · rw [analyze_pdf_ok_pages_pos asciiAlnum path r "abc123  ###".data hp]
    apply List.mem_append_right
    decide

set_option maxRecDepth 16000 in
/-- C3 amended witness: the quality line on a concrete reader and
text. -/
theorem analyze_pdf_quality_line_double_witness :
    0 < (PdfReader.mk 1 false none).numPages ∧
    0 < ("ab!".data : List Char).length ∧
    (("Text quality ratio: " ++
        qualityRatioStr (("ab!".data.filter asciiAlnum).length)
          "ab!".data.length ++ "%")
      ∈ analyze_pdf asciiAlnum "c.pdf" (.ok ⟨1, false, none⟩ (.ok "ab!".data)) ∧
    ("abc123  ###".data.length = 11 ∧
      ("abc123  ###".data.filter asciiAlnum).length = 6 ∧
      qualityRatioStr 6 11 = "54.5" ∧ qualityRatioStr 23 80 = "28.7") ∧
    "Text quality ratio: 54.5%" ∈
      analyze_pdf asciiAlnum "c.pdf"
        (.ok ⟨1, false, none⟩ (.ok "abc123  ###".data))) :=
  ⟨by decide, by decide, analyze_pdf_quality_line_double asciiAlnum "c.pdf"
    ⟨1, false, none⟩ "ab!".data (by decide) (by decide)⟩

/-- C4: for every first-page extracted text of length strictly greater
than 200, the preview line printed by `analyze_pdf` contains exactly the
first 200 characters of that text followed by the literal `...`, for
arbitrary text content (the characters are unconstrained, so non-ASCII
code points are covered). -/
theorem analyze_pdf_preview_truncation (alnum : Char → Bool)
    (path : String) (r : PdfReader) (text : List Char)
    (hp : 0 < r.numPages) (hl : 200 < text.length) :
    ("First page text preview: " ++ String.mk (text.take 200) ++ "...")
      ∈ analyze_pdf alnum path (.ok r (.ok text)) ∧
    (text.take 200).length = 200 ∧
    text.take 200 ++ text.drop 200 = text := by
  refine ⟨?_, ?_, List.take_append_drop 200 text⟩
  · rw [analyze_pdf_ok_pages_pos alnum path r text hp]
    apply List.mem_append_right
    simp [firstPageLines]
  · rw [List.length_take]
    exact Nat.min_eq_left (Nat.le_of_lt hl)

set_option maxRecDepth 4000 in
/-- C4 witness: a 201-character non-ASCII text is previewed as its first
200 characters plus the ellipsis. -/
theorem analyze_pdf_preview_truncation_witness :
    0 < (PdfReader.mk 1 false none).numPages ∧
    200 < (List.replicate 201 'é').length ∧
    (("First page text preview: " ++
        String.mk ((List.replicate 201 'é').take 200) ++ "...")
      ∈ analyze_pdf asciiAlnum "d.pdf"
          (.ok ⟨1, false, none⟩ (.ok (List.replicate 201 'é'))) ∧
    ((List.replicate 201 'é').take 200).length = 200 ∧
    (List.replicate 201 'é').take 200 ++ (List.replicate 201 'é').drop 200 =
      List.replicate 201 'é') :=
  ⟨by decide, by decide, analyze_pdf_preview_truncation asciiAlnum "d.pdf"
    ⟨1, false, none⟩ (List.replicate 201 'é') (by decide) (by decide)⟩

/-- C5: for every PDF whose metadata mapping is present and non-empty,
the output contains, right after the header, exactly the three metadata
lines (PDF Version, Creator, Producer), each obtained by a `dict.get`
lookup defaulting to `Unknown`; when the `/Creator` key is absent the
Creator line prints `Unknown` while the other two lines only depend on
their own keys. -/
theorem analyze_pdf_metadata_three_lines (alnum : Char → Bool)
    (path : String) (r : PdfReader) (ext : Except String (List Char))
    (m : List (String × String)) (hm : r.metadata = some m) (hne : m ≠ []) :
    (∃ rest, analyze_pdf alnum path (.ok r ext) =
      headerLines path r ++
      ["PDF Version: " ++ dictGet m "/PDF" "Unknown",
       "Creator: " ++ dictGet m "/Creator" "Unknown",
       "Producer: " ++ dictGet m "/Producer" "Unknown"] ++ rest) ∧
    (m.lookup "/Creator" = none → dictGet m "/Creator" "Unknown" = "Unknown") := by
  constructor
  · have h1 : analyze_pdf alnum path (.ok r ext) =
        headerLines path r ++ metaLines r ++
        (if r.numPages > 0 then
          match ext with
          | .ok text => firstPageLines alnum text
          | .error msg => ["Error analyzing PDF: " ++ msg]
        else ["No pages found"]) := rfl
    rw [metaLines_of_some r m hm hne] at h1
    exact ⟨_, h1⟩
  · intro h
    simp [dictGet, h]

/-- C5 witness: a metadata mapping with `/PDF` and `/Producer` but no
`/Creator` key yields `Creator: Unknown` between the two other lines. -/
theorem analyze_pdf_metadata_three_lines_witness :
    (PdfReader.mk 2 false
        (some [("/PDF", "1.4"), ("/Producer", "LibreOffice")])).metadata =
      some [("/PDF", "1.4"), ("/Producer", "LibreOffice")] ∧
    ([("/PDF", "1.4"), ("/Producer", "LibreOffice")] :
        List (String × String)) ≠ [] ∧
    ((∃ rest, analyze_pdf asciiAlnum "e.pdf"
        (.ok ⟨2, false, some [("/PDF", "1.4"), ("/Producer", "LibreOffice")]⟩
          (.ok "hello".data)) =
      headerLines "e.pdf"
        ⟨2, false, some [("/PDF", "1.4"), ("/Producer", "LibreOffice")]⟩ ++
      ["PDF Version: " ++
        dictGet [("/PDF", "1.4"), ("/Producer", "LibreOffice")] "/PDF" "Unknown",
       "Creator: " ++
        dictGet [("/PDF", "1.4"), ("/Producer", "LibreOffice")] "/Creator" "Unknown",
       "Producer: " ++
        dictGet [("/PDF", "1.4"), ("/Producer", "LibreOffice")] "/Producer" "Unknown"]
      ++ rest) ∧
    (([("/PDF", "1.4"), ("/Producer", "LibreOffice")] :
        List (String × String)).lookup "/Creator" = none →
      dictGet [("/PDF", "1.4"), ("/Producer", "LibreOffice")] "/Creator" "Unknown" =
        "Unknown")) :=
  ⟨rfl, by decide, analyze_pdf_metadata_three_lines asciiAlnum "e.pdf"
    ⟨2, false, some [("/PDF", "1.4"), ("/Producer", "LibreOffice")]⟩
    (.ok "hello".data) [("/PDF", "1.4"), ("/Producer", "LibreOffice")] rfl
    (by decide)⟩

/-- C6: for every PDF with page count zero, the run ends with the single
line `No pages found` and none of the four first-page lines (text
length, preview, alphanumeric count, quality ratio) appears anywhere in
the output, for every extraction behavior (extraction is never
reached). -/
theorem analyze_pdf_no_pages (alnum : Char → Bool) (path : String)
    (r : PdfReader) (ext : Except String (List Char)) (h : r.numPages = 0) :
    analyze_pdf alnum path (.ok r ext) =
      headerLines path r ++ metaLines r ++ ["No pages found"] ∧
    (analyze_pdf alnum path (.ok r ext)).countP isFirstPageLine = 0 := by
  have h1 := analyze_pdf_ok_zero_pages alnum path r ext h
  refine ⟨h1, ?_⟩
  rw [h1]
  simp [List.countP_append, countP_isFirstPageLine_headerLines,
    countP_isFirstPageLine_metaLines, List.countP_cons]

/-- C6 witness: a zero-page reader on a concrete path. -/
theorem analyze_pdf_no_pages_witness :
    (PdfReader.mk 0 false (some [("/Creator", "x")])).numPages = 0 ∧
    (analyze_pdf asciiAlnum "f.pdf"
        (.ok ⟨0, false, some [("/Creator", "x")]⟩ (.ok "t".data)) =
      headerLines "f.pdf" ⟨0, false, some [("/Creator", "x")]⟩ ++
      metaLines ⟨0, false, some [("/Creator", "x")]⟩ ++ ["No pages found"] ∧
    (analyze_pdf asciiAlnum "f.pdf"
        (.ok ⟨0, false, some [("/Creator", "x")]⟩ (.ok "t".data))).countP
      isFirstPageLine = 0) :=
  ⟨rfl, analyze_pdf_no_pages asciiAlnum "f.pdf"
    ⟨0, false, some [("/Creator", "x")]⟩ (.ok "t".data) rfl⟩

/-- C7: for every PDF whose metadata attribute is `None` or whose
mapping is empty, the output contains the single line
`No metadata found` right after the header, and none of the three
metadata field lines appears anywhere in the output. -/
theorem analyze_pdf_no_metadata (alnum : Char → Bool) (path : String)
    (r : PdfReader) (ext : Except String (List Char))
    (h : r.metadata = none ∨ r.metadata = some []) :
    (∃ rest, analyze_pdf alnum path (.ok r ext) =
      headerLines path r ++ ["No metadata found"] ++ rest) ∧
    (analyze_pdf alnum path (.ok r ext)).countP isMetaFieldLine = 0 := by
  have h1 : analyze_pdf alnum path (.ok r ext) =
      headerLines path r ++ metaLines r ++
      (if r.numPages > 0 then
        match ext with
        | .ok text => firstPageLines alnum text
        | .error msg => ["Error analyzing PDF: " ++ msg]
      else ["No pages found"]) := rfl
  rw [metaLines_of_absent r h] at h1
  refine ⟨⟨_, h1⟩, ?_⟩
  rw [h1]
  rw [List.countP_append, List.countP_append,
    countP_isMetaFieldLine_headerLines]
  have h2 : (["No metadata found"] : List String).countP isMetaFieldLine = 0 := rfl
  rw [h2]
  by_cases hp : r.numPages > 0
  · rw [if_pos hp]
    rcases ext with msg | text
    · simp [List.countP_cons]
    · simp [countP_isMetaFieldLine_firstPageLines]
  · rw [if_neg hp]
    simp [List.countP_cons]

/-- C7 witness: a reader with a `None` metadata attribute. -/
theorem analyze_pdf_no_metadata_witness :
    ((PdfReader.mk 1 true none).metadata = none ∨
      (PdfReader.mk 1 true none).metadata = some []) ∧
    ((∃ rest, analyze_pdf asciiAlnum "g.pdf"
        (.ok ⟨1, true, none⟩ (.ok "t".data)) =
      headerLines "g.pdf" ⟨1, true, none⟩ ++ ["No metadata found"] ++ rest) ∧
    (analyze_pdf asciiAlnum "g.pdf"
        (.ok ⟨1, true, none⟩ (.ok "t".data))).countP isMetaFieldLine = 0) :=
  ⟨Or.inl rfl, analyze_pdf_no_metadata asciiAlnum "g.pdf" ⟨1, true, none⟩
    (.ok "t".data) (Or.inl rfl)⟩

/-- C8: for every first-page extracted text, the value on the
`Non-whitespace characters:` line is the count of characters satisfying
the alphanumeric classification, not the count of non-whitespace
characters: `#` and `@` are non-whitespace yet excluded from the count,
as the concrete conjuncts show on the text `"#@"` (alphanumeric count 0,
non-whitespace count 2). -/
theorem analyze_pdf_non_whitespace_is_alnum_count (alnum : Char → Bool)
    (path : String) (r : PdfReader) (text : List Char)
    (hp : 0 < r.numPages) :
    ("Non-whitespace characters: " ++ toString ((text.filter alnum).length))
      ∈ analyze_pdf alnum path (.ok r (.ok text)) ∧
    asciiAlnum '#' = false ∧ asciiAlnum '@' = false ∧
    '#'.isWhitespace = false ∧ '@'.isWhitespace = false ∧
    ("#@".data.filter asciiAlnum).length = 0 ∧
    ("#@".data.filter (fun c => !c.isWhitespace)).length = 2 := by
  refine ⟨?_, by decide, by decide, by decide, by decide, by decide, by decide⟩
  rw [analyze_pdf_ok_pages_pos alnum path r text hp]
  apply List.mem_append_right
  simp [firstPageLines]

/-- C8 witness: the count line on a concrete text containing `#` and
`@`. -/
theorem analyze_pdf_non_whitespace_is_alnum_count_witness :
    0 < (PdfReader.mk 1 false none).numPages ∧
    (("Non-whitespace characters: " ++
        toString (("a#@b".data.filter asciiAlnum).length))
      ∈ analyze_pdf asciiAlnum "h.pdf"
          (.ok ⟨1, false, none⟩ (.ok "a#@b".data)) ∧
    asciiAlnum '#' = false ∧ asciiAlnum '@' = false ∧
    '#'.isWhitespace = false ∧ '@'.isWhitespace = false ∧
    ("#@".data.filter asciiAlnum).length = 0 ∧
    ("#@".data.filter (fun c => !c.isWhitespace)).length = 2) :=
  ⟨by decide, analyze_pdf_non_whitespace_is_alnum_count asciiAlnum "h.pdf"
    ⟨1, false, none⟩ "a#@b".data (by decide)⟩

/-- C9: when extraction of the first page fails, the output is exactly
the lines printed before the failure point — which coincide, unchanged,
with the opening lines of any successful run on the same reader —
followed by the single `Error analyzing PDF:` line; no expected later
line appears and no line before the failure point is an error line. -/
theorem analyze_pdf_partial_output_on_failure (alnum : Char → Bool)
    (path : String) (r : PdfReader) (msg : String) (text : List Char)
    (hp : 0 < r.numPages) :
    (∃ rest, analyze_pdf alnum path (.ok r (.ok text)) =
      (analyze_pdf alnum path (.ok r (.error msg))).dropLast ++ rest) ∧
    analyze_pdf alnum path (.ok r (.error msg)) =
      (analyze_pdf alnum path (.ok r (.error msg))).dropLast ++
        ["Error analyzing PDF: " ++ msg] ∧
    ((analyze_pdf alnum path (.ok r (.error msg))).dropLast).countP
      isErrLine = 0 := by
  have he := analyze_pdf_ok_extract_error alnum path r msg hp
  have hd : (analyze_pdf alnum path (.ok r (.error msg))).dropLast =
      headerLines path r ++ metaLines r := by
    rw [he]
    exact List.dropLast_concat
  refine ⟨⟨firstPageLines alnum text, ?_⟩, ?_, ?_⟩
  · rw [hd, analyze_pdf_ok_pages_pos alnum path r text hp]
  · rw [hd, he]
  · rw [hd]
    simp [List.countP_append, countP_isErrLine_headerLines,
      countP_isErrLine_metaLines]

/-- C9 witness: a concrete reader whose extraction fails with message
`stream error`. -/
theorem analyze_pdf_partial_output_on_failure_witness :
    0 < (PdfReader.mk 1 false (some [("/Creator", "W")])).numPages ∧
    ((∃ rest, analyze_pdf asciiAlnum "i.pdf"
        (.ok ⟨1, false, some [("/Creator", "W")]⟩ (.ok "t".data)) =
      (analyze_pdf asciiAlnum "i.pdf"
        (.ok ⟨1, false, some [("/Creator", "W")]⟩
          (.error "stream error"))).dropLast ++ rest) ∧
    analyze_pdf asciiAlnum "i.pdf"
        (.ok ⟨1, false, some [("/Creator", "W")]⟩ (.error "stream error")) =
      (analyze_pdf asciiAlnum "i.pdf"
        (.ok ⟨1, false, some [("/Creator", "W")]⟩
          (.error "stream error"))).dropLast ++
        ["Error analyzing PDF: " ++ "stream error"] ∧
    ((analyze_pdf asciiAlnum "i.pdf"
        (.ok ⟨1, false, some [("/Creator", "W")]⟩
          (.error "stream error"))).dropLast).countP isErrLine = 0) :=
  ⟨by decide, analyze_pdf_partial_output_on_failure asciiAlnum "i.pdf"
    ⟨1, false, some [("/Creator", "W")]⟩ "stream error" "t".data (by decide)⟩

/-- C10 (implicit): for every first-page extracted text of length at
most 200 — including the empty text — the preview line prints the whole
text followed by the literal `...`, so the `...` suffix appears even
when nothing was truncated and the output does not distinguish truncated
from complete text. -/
theorem analyze_pdf_preview_ellipsis_short_text (alnum : Char → Bool)
    (path : String) (r : PdfReader) (text : List Char)
    (hp : 0 < r.numPages) (hl : text.length ≤ 200) :
    ("First page text preview: " ++ String.mk text ++ "...")
      ∈ analyze_pdf alnum path (.ok r (.ok text)) := by
  rw [analyze_pdf_ok_pages_pos alnum path r text hp]
  apply List.mem_append_right
  have ht : text.take 200 = text := List.take_of_length_le hl
  simp [firstPageLines, ht]

/-- C10 witness: the empty text still gets the `...` suffix (the
preview line is `First page text preview: ...`). -/
theorem analyze_pdf_preview_ellipsis_short_text_witness :
    0 < (PdfReader.mk 1 false none).numPages ∧
    ([] : List Char).length ≤ 200 ∧
    ("First page text preview: " ++ String.mk [] ++ "...")
      ∈ analyze_pdf asciiAlnum "j.pdf" (.ok ⟨1, false, none⟩ (.ok [])) :=
  ⟨by decide, by decide, analyze_pdf_preview_ellipsis_short_text asciiAlnum
    "j.pdf" ⟨1, false, none⟩ [] (by decide) (by decide)⟩
